import Mathlib

/-!
Verification of the redaction-box geometry engine of a client-side
image-redaction tool.

The embedding below translates the original algorithmic logic of the
application source (`calculateRedactionBoxes`, `findBoxAt`, the
mousemove/touchmove clamping, and the detect-button pipeline) into Lean.
Numeric values are modelled over an arbitrary linear ordered field `α`
(instantiated at `ℚ` for concrete evaluations and at `ℝ` for the
geometric theorems); the transcendental library functions the source
calls (`Math.atan2`, `Math.hypot`, `Math.sqrt`, `Math.cos`, `Math.sin`)
are passed in as function parameters so that the pure arithmetic of the
source is captured exactly, and the real-number theorems instantiate
them with `Real.arctan`-free abstract values or the actual `Real.sqrt`,
`Real.cos`, `Real.sin`.
-/

namespace Redacted

/-- A facial keypoint as consumed by the source: the `x` field may be
absent (the source guards `rightEye.x !== undefined`); the `y` field is
a plain number. -/
structure Keypoint (α : Type) where
  x : Option α
  y : α
  deriving DecidableEq

/-- A detection bounding box `{originX, originY, width, height}`. -/
structure BoundingBox (α : Type) where
  originX : α
  originY : α
  width : α
  height : α
  deriving DecidableEq

/-- One face detection: optional bounding box, optional keypoint list. -/
structure Detection (α : Type) where
  boundingBox : Option (BoundingBox α)
  keypoints : Option (List (Keypoint α))
  deriving DecidableEq

/-- A redaction box; the source tags plain objects with
`type: 'standard'` (anchored at the top-left corner, no angle) or
`type: 'rotated'` (anchored at the center, carrying `angle`). -/
inductive RedactionBox (α : Type) where
  | standard (x y width height : α)
  | rotated (x y width height angle : α)
  deriving DecidableEq

variable {α : Type} [LinearOrderedField α]

/-- The `x` field of a box (top-left for standard, center for rotated). -/
def boxX : RedactionBox α → α
  | .standard x _ _ _ => x
  | .rotated x _ _ _ _ => x

/-- The `y` field of a box (top-left for standard, center for rotated). -/
def boxY : RedactionBox α → α
  | .standard _ y _ _ => y
  | .rotated _ y _ _ _ => y

/-- The `width` field of a box. -/
def boxW : RedactionBox α → α
  | .standard _ _ w _ => w
  | .rotated _ _ w _ _ => w

/-- The `height` field of a box. -/
def boxH : RedactionBox α → α
  | .standard _ _ _ h => h
  | .rotated _ _ _ h _ => h

/-- Coordinate-normalization heuristic of the source:
`v < 2 ? v * E : v` for an axis value `v` and the canvas extent `E`. -/
def normCoord (v E : α) : α := if v < 2 then v * E else v

/-- The per-detection body of `calculateRedactionBoxes` (source lines
205-264): if the detection has at least two keypoints and both of the
first two have an `x` field, emit a rotated box aligned with the eye
line (and `continue`, skipping the fallback); otherwise, if a bounding
box is present, emit a standard box over the estimated eye strip;
otherwise emit nothing.  `atan2 dy dx` and `hypot dx dy` stand for
`Math.atan2(dy, dx)` and `Math.hypot(dx, dy)`; `W`, `H` are
`canvas.width`, `canvas.height`. -/
def computeBox (atan2 hypot : α → α → α) (W H : α) (det : Detection α) :
    Option (RedactionBox α) :=
  let fallback : Option (RedactionBox α) :=
    match det.boundingBox with
    | some bb =>
        let eyeY := bb.originY + bb.height * (3 / 10)
        let eyeWidth := bb.width * (8 / 10)
        let eyeHeight := bb.height * (2 / 10)
        some (.standard (bb.originX + bb.width * (1 / 10)) (eyeY - eyeHeight / 2)
          eyeWidth eyeHeight)
    | none => none
  match det.keypoints with
  | some (rightEye :: leftEye :: _) =>
      match rightEye.x, leftEye.x with
      | some rx, some lx =>
          let rightEyeX := normCoord rx W
          let rightEyeY := normCoord rightEye.y H
          let leftEyeX := normCoord lx W
          let leftEyeY := normCoord leftEye.y H
          let dx := leftEyeX - rightEyeX
          let dy := leftEyeY - rightEyeY
          let angle := atan2 dy dx
          let distance := hypot dx dy
          let centerX := (rightEyeX + leftEyeX) / 2
          let centerY := (rightEyeY + leftEyeY) / 2
          let barWidth := distance * (5 / 2)
          let barHeight := distance * (1 / 2)
          some (.rotated centerX centerY barWidth barHeight angle)
      | _, _ => fallback
  | _ => fallback

/-- `calculateRedactionBoxes` (source lines 202-267): the loop pushes at
most one box per detection, in input order. -/
def calculateRedactionBoxes (atan2 hypot : α → α → α) (W H : α)
    (dets : List (Detection α)) : List (RedactionBox α) :=
  dets.filterMap (computeBox atan2 hypot W H)

/-- The condition under which the keypoint branch of
`calculateRedactionBoxes` fires: at least two keypoints, with the first
two both having an `x` field. -/
def hasUsablePair (det : Detection α) : Bool :=
  match det.keypoints with
  | some (rightEye :: leftEye :: _) => rightEye.x.isSome && leftEye.x.isSome
  | _ => false

/-- The per-box containment test inlined in `findBoxAt` (source lines
337-356).  For a rotated box the query point is translated by the
negated center and rotated by `-angle` (`cosF`, `sinF` stand for
`Math.cos`, `Math.sin`); for a standard box it is a plain axis-aligned
rectangle test with `(x, y)` as the top-left corner. -/
def boxContains (cosF sinF : α → α) (x y : α) : RedactionBox α → Bool
  | .rotated bx bcy w h angle =>
      let dx := x - bx
      let dy := y - bcy
      let c := cosF (-angle)
      let s := sinF (-angle)
      let localX := dx * c - dy * s
      let localY := dx * s + dy * c
      decide (|localX| ≤ w / 2) && decide (|localY| ≤ h / 2)
  | .standard bx bcy w h =>
      decide (bx ≤ x) && decide (x ≤ bx + w) && decide (bcy ≤ y) && decide (y ≤ bcy + h)

/-- `findBoxAt` (source lines 332-359): the loop walks the box array
from the last index down to 0 and returns the first hit, so later
entries (topmost) win.  The recursion below answers for the tail (the
later indices) first and only then tests the head. -/
def findBoxAt (cosF sinF : α → α) (x y : α) : List (RedactionBox α) → Option (RedactionBox α)
  | [] => none
  | b :: rest =>
      match findBoxAt cosF sinF x y rest with
      | some r => some r
      | none => if boxContains cosF sinF x y b then some b else none

/-- One gesture-move update of the drag controller (mousemove handler,
source lines 395-409; the touchmove handler, lines 450-465, performs
the identical arithmetic).  The dragged box's anchor is set to
`pointer - dragOffset` and then clamped: a standard box keeps its full
extent inside the canvas, a rotated box clamps its center by the
half-diagonal `sqrtF (w*w + h*h) / 2` on every side (`sqrtF` stands for
`Math.sqrt`; `W`, `H` are `canvas.width`, `canvas.height`). -/
def dragMove (sqrtF : α → α) (W H px py ox oy : α) : RedactionBox α → RedactionBox α
  | .rotated _ _ w h angle =>
      let nx := px - ox
      let ny := py - oy
      let halfDiag := sqrtF (w * w + h * h) / 2
      .rotated (max halfDiag (min (W - halfDiag) nx))
        (max halfDiag (min (H - halfDiag) ny)) w h angle
  | .standard _ _ w h =>
      let nx := px - ox
      let ny := py - oy
      .standard (max 0 (min (W - w) nx)) (max 0 (min (H - h) ny)) w h

/-- What the display surface currently shows: the restored base image
alone (after `ctx.putImageData(originalImageData, 0, 0)`), or the base
image composited with a list of drawn boxes (after
`drawRedactionBoxes`).  The surface contents before the operation under
study are an arbitrary value of this type. -/
inductive CanvasContent (α : Type) where
  | baseOnly
  | composited (boxes : List (RedactionBox α))
  deriving DecidableEq

/-- Where, if anywhere, an exception is raised inside the `try` block of
the detect-button handler: in the awaited `detector.detect` call, in the
`ctx.putImageData` restore (the spec's "surface not ready"), or in the
`drawRedactionBoxes` render.  A step only faults if control reaches it. -/
inductive PipelineFault where
  | noFault
  | detectFault
  | restoreFault
  | drawFault
  deriving DecidableEq

/-- The mutable application state the detect-button handler touches. -/
structure AppState (α : Type) where
  detections : List (Detection α)
  redactionBoxes : List (RedactionBox α)
  canvas : CanvasContent α
  status : String
  statusIsError : Bool
  downloadDisabled : Bool
  deriving DecidableEq

/-- The detect-button click handler (source lines 145-179).  `res` is
the detection list the inference collaborator would return;
`detectorReady` models `detector !== null`; `fault` injects an
exception at one of the three effectful steps of the `try` block, which
the trailing `catch` converts into the error status
`"Error processing image"`.  State updates that the source performs
before the faulting step are kept, exactly as in the source. -/
def detectClick (atan2 hypot : α → α → α) (W H : α) (detectorReady : Bool)
    (fault : PipelineFault) (res : List (Detection α)) (s : AppState α) : AppState α :=
  if detectorReady = false then
    { s with status := "Detector not initialized.", statusIsError := true }
  else if W = 0 ∨ H = 0 then s
  else
    let s1 := { s with status := "Detecting faces...", statusIsError := false }
    if fault = .detectFault then
      { s1 with status := "Error processing image", statusIsError := true }
    else
      let s2 := { s1 with detections := res }
      if res.length = 0 then
        { s2 with status := "No faces detected", statusIsError := false }
      else if fault = .restoreFault then
        { s2 with status := "Error processing image", statusIsError := true }
      else
        let s3 := { s2 with canvas := .baseOnly }
        let s4 := { s3 with redactionBoxes := calculateRedactionBoxes atan2 hypot W H res }
        if s4.redactionBoxes.length = 0 then
          { s4 with status := "Error creating redaction boxes", statusIsError := true }
        else if fault = .drawFault then
          { s4 with status := "Error processing image", statusIsError := true }
        else
          { s4 with
              canvas := .composited s4.redactionBoxes,
              downloadDisabled := false,
              status := "Redacted " ++ toString res.length ++
                (if res.length = 1 then " face" else " faces"),
              statusIsError := false }

/-! ## Theorems -/

/-- Claim C1: a detection whose keypoint list has at least two entries,
with both of the first two keypoints carrying an `x` field, yields a
`Rotated` box derived from the two per-axis-normalized eye points:
angle `atan2 dy dx`, center the midpoint, width `2.5 ×` and height
`0.5 ×` the eye distance `hypot dx dy`, where `(dx, dy)` is the
right-eye-to-left-eye delta; the bounding-box fallback is not also
applied for that detection (it contributes exactly this one box). -/
theorem computeBox_keypoints_rotated (atan2 hypot : α → α → α) (W H : α)
    (det : Detection α) (k0 k1 : Keypoint α) (rest : List (Keypoint α)) (rx lx : α)
    (hk : det.keypoints = some (k0 :: k1 :: rest))
    (hx0 : k0.x = some rx) (hx1 : k1.x = some lx) :
    computeBox atan2 hypot W H det =
      some (.rotated ((normCoord rx W + normCoord lx W) / 2)
        ((normCoord k0.y H + normCoord k1.y H) / 2)
        (hypot (normCoord lx W - normCoord rx W) (normCoord k1.y H - normCoord k0.y H) * (5 / 2))
        (hypot (normCoord lx W - normCoord rx W) (normCoord k1.y H - normCoord k0.y H) * (1 / 2))
        (atan2 (normCoord k1.y H - normCoord k0.y H) (normCoord lx W - normCoord rx W))) ∧
    calculateRedactionBoxes atan2 hypot W H [det] =
      [.rotated ((normCoord rx W + normCoord lx W) / 2)
        ((normCoord k0.y H + normCoord k1.y H) / 2)
        (hypot (normCoord lx W - normCoord rx W) (normCoord k1.y H - normCoord k0.y H) * (5 / 2))
        (hypot (normCoord lx W - normCoord rx W) (normCoord k1.y H - normCoord k0.y H) * (1 / 2))
        (atan2 (normCoord k1.y H - normCoord k0.y H) (normCoord lx W - normCoord rx W))] := by
  have h1 : computeBox atan2 hypot W H det =
      some (.rotated ((normCoord rx W + normCoord lx W) / 2)
        ((normCoord k0.y H + normCoord k1.y H) / 2)
        (hypot (normCoord lx W - normCoord rx W) (normCoord k1.y H - normCoord k0.y H) * (5 / 2))
        (hypot (normCoord lx W - normCoord rx W) (normCoord k1.y H - normCoord k0.y H) * (1 / 2))
        (atan2 (normCoord k1.y H - normCoord k0.y H) (normCoord lx W - normCoord rx W))) := by
    simp [computeBox, hk, hx0, hx1]
  exact ⟨h1, by simp [calculateRedactionBoxes, h1]⟩

/-- Claim C1, witness: the spec's own scenario — keypoints
`(0.4, 0.4)` and `(0.6, 0.4)` on a 1000 × 1000 canvas (with a concrete
`hypot` returning `dx + dy` and a concrete `atan2` returning `0`) give
the rotated box centered at `(500, 400)` with width `500`, height
`100`, angle `0`. -/
theorem computeBox_keypoints_rotated_witness :
    computeBox (fun _ _ => (0 : ℚ)) (fun a b => a + b) 1000 1000
      ⟨none, some [⟨some (2 / 5), 2 / 5⟩, ⟨some (3 / 5), 2 / 5⟩]⟩ =
      some (.rotated 500 400 500 100 0) := by
  have h := computeBox_keypoints_rotated (fun _ _ => (0 : ℚ)) (fun a b => a + b) 1000 1000
    ⟨none, some [⟨some (2 / 5), 2 / 5⟩, ⟨some (3 / 5), 2 / 5⟩]⟩
    ⟨some (2 / 5), 2 / 5⟩ ⟨some (3 / 5), 2 / 5⟩ [] (2 / 5) (3 / 5) rfl rfl rfl
  rw [h.1]
  norm_num [normCoord]

/-- Claim C2: a detection with no usable keypoint pair but with a
bounding box yields a `Standard` box with `x = originX + 0.1·width`,
`width = 0.8·width`, `height = 0.2·height`, and
`y = (originY + 0.3·height) - (0.2·height)/2`; the strip is vertically
centered at `originY + 0.3·height`. -/
theorem computeBox_bbox_fallback (atan2 hypot : α → α → α) (W H : α)
    (det : Detection α) (bb : BoundingBox α)
    (hkp : hasUsablePair det = false) (hbb : det.boundingBox = some bb) :
    computeBox atan2 hypot W H det =
      some (.standard (bb.originX + bb.width * (1 / 10))
        ((bb.originY + bb.height * (3 / 10)) - bb.height * (2 / 10) / 2)
        (bb.width * (8 / 10)) (bb.height * (2 / 10))) ∧
    ((bb.originY + bb.height * (3 / 10)) - bb.height * (2 / 10) / 2) + bb.height * (2 / 10) / 2 =
      bb.originY + bb.height * (3 / 10) := by
  refine ⟨?_, by ring⟩
  rcases hk : det.keypoints with _ | kps
  · simp [computeBox, hk, hbb]
  · rcases kps with _ | ⟨k0, kps1⟩
    · simp [computeBox, hk, hbb]
    · rcases kps1 with _ | ⟨k1, rest⟩
      · simp [computeBox, hk, hbb]
      · rcases hx0 : k0.x with _ | rx
        · simp [computeBox, hk, hbb, hx0]
        · rcases hx1 : k1.x with _ | lx
          · simp [computeBox, hk, hbb, hx0, hx1]
          · exfalso
            rw [hasUsablePair, hk] at hkp
            simp [hx0, hx1] at hkp

/-- Claim C2, witness: a detection with two keypoints that both lack
`x`, plus bounding box `{50, 80, 100, 200}`, gives the standard box
`x = 60, y = 120, width = 80, height = 40`. -/
theorem computeBox_bbox_fallback_witness :
    hasUsablePair (⟨some ⟨50, 80, 100, 200⟩, some [⟨none, 1⟩, ⟨none, 1⟩]⟩ : Detection ℚ) = false ∧
    computeBox (fun _ _ => (0 : ℚ)) (fun _ _ => 0) 1000 1000
      ⟨some ⟨50, 80, 100, 200⟩, some [⟨none, 1⟩, ⟨none, 1⟩]⟩ =
      some (.standard 60 120 80 40) := by
  have h := computeBox_bbox_fallback (fun _ _ => (0 : ℚ)) (fun _ _ => 0) 1000 1000
    ⟨some ⟨50, 80, 100, 200⟩, some [⟨none, 1⟩, ⟨none, 1⟩]⟩ ⟨50, 80, 100, 200⟩ rfl rfl
  refine ⟨rfl, ?_⟩
  rw [h.1]
  norm_num

/-- Claim C6 (amended): `compute` never returns more boxes than input
detections, and a detection yields no box exactly when it has no usable
keypoint pair (at least two keypoints with the first two having `x`)
and no bounding box. -/
theorem calculateRedactionBoxes_coverage (atan2 hypot : α → α → α) (W H : α)
    (dets : List (Detection α)) :
    (calculateRedactionBoxes atan2 hypot W H dets).length ≤ dets.length ∧
    ∀ det : Detection α,
      (computeBox atan2 hypot W H det = none ↔
        hasUsablePair det = false ∧ det.boundingBox = none) := by
  refine ⟨List.length_filterMap_le _ _, ?_⟩
  intro det
  rcases hk : det.keypoints with _ | kps
  · rcases hbb : det.boundingBox with _ | bb <;>
      simp [computeBox, hasUsablePair, hk, hbb]
  · rcases kps with _ | ⟨k0, kps1⟩
    · rcases hbb : det.boundingBox with _ | bb <;>
        simp [computeBox, hasUsablePair, hk, hbb]
    · rcases kps1 with _ | ⟨k1, rest⟩
      · rcases hbb : det.boundingBox with _ | bb <;>
          simp [computeBox, hasUsablePair, hk, hbb]
      · rcases hx0 : k0.x with _ | rx
        · rcases hbb : det.boundingBox with _ | bb <;>
            simp [computeBox, hasUsablePair, hk, hbb, hx0]
        · rcases hx1 : k1.x with _ | lx
          · rcases hbb : det.boundingBox with _ | bb <;>
              simp [computeBox, hasUsablePair, hk, hbb, hx0, hx1]
          · simp [computeBox, hasUsablePair, hk, hx0, hx1]

/-- Claim C6, witness: a detection with neither keypoints nor a
bounding box yields no box, and on the singleton list the output is no
longer than the input. -/
theorem calculateRedactionBoxes_coverage_witness :
    computeBox (fun a _ => (a : ℚ)) (fun a _ => a) 8 8 (⟨none, none⟩ : Detection ℚ) = none ∧
    (calculateRedactionBoxes (fun a _ => (a : ℚ)) (fun a _ => a) 8 8 [⟨none, none⟩]).length ≤ 1 := by
  have h := calculateRedactionBoxes_coverage (fun a _ => (a : ℚ)) (fun a _ => a) 8 8
    [(⟨none, none⟩ : Detection ℚ)]
  exact ⟨(h.2 ⟨none, none⟩).mpr ⟨rfl, rfl⟩, h.1⟩

/-- Claim C6, counterexample to the claim as stated: a detection that
does have keypoints (a single one) but no bounding box is nevertheless
dropped, so "drops only detections with neither keypoints nor a
bounding box" fails. -/
theorem calculateRedactionBoxes_coverage_counterexample :
    calculateRedactionBoxes (fun a _ => (a : ℚ)) (fun a _ => a) 10 10
      [⟨none, some [⟨some 5, 5⟩]⟩] = [] ∧
    (⟨none, some [⟨some 5, 5⟩]⟩ : Detection ℚ).keypoints ≠ none := by
  refine ⟨?_, by simp⟩
  simp [calculateRedactionBoxes, computeBox]

/-- Claim C7 (amended): for the single detection with no keypoints and
bounding box `{originX: 100, originY: 100, width: 200, height: 200}`,
`compute` returns exactly one standard box `x = 120`, `y = 140`
(not `190`), `width = 160`, `height = 40`. -/
theorem calculateRedactionBoxes_bbox_scenario :
    calculateRedactionBoxes (fun _ _ => (0 : ℚ)) (fun _ _ => 0) 1000 1000
      [⟨some ⟨100, 100, 200, 200⟩, none⟩] = [.standard 120 140 160 40] := by
  norm_num [calculateRedactionBoxes, List.filterMap_cons, computeBox]

/-- Claim C7, counterexample: the box computed for that detection has
`y = 140`, while the claim demands `y = 190`. -/
theorem calculateRedactionBoxes_bbox_scenario_counterexample :
    (∃ b : RedactionBox ℚ,
      calculateRedactionBoxes (fun _ _ => (0 : ℚ)) (fun _ _ => 0) 1000 1000
        [⟨some ⟨100, 100, 200, 200⟩, none⟩] = [b] ∧ boxY b = 140) ∧ (140 : ℚ) ≠ 190 := by
  refine ⟨⟨.standard 120 140 160 40, ?_, rfl⟩, by norm_num⟩
  norm_num [calculateRedactionBoxes, List.filterMap_cons, computeBox]

/-- Claim C4: `findBoxAt` returns `none` exactly when no box in the
list contains the point, and whenever it returns a box, that box sits
at the highest array index whose variant-appropriate containment test
accepts the point (later entries are tested first, so the topmost of
overlapping boxes wins). -/
theorem findBoxAt_topmost (cosF sinF : α → α) (x y : α) (boxes : List (RedactionBox α)) :
    (findBoxAt cosF sinF x y boxes = none ↔
      ∀ b ∈ boxes, boxContains cosF sinF x y b = false) ∧
    (∀ b : RedactionBox α, findBoxAt cosF sinF x y boxes = some b →
      ∃ i : ℕ, ∃ hi : i < boxes.length, boxes.get ⟨i, hi⟩ = b ∧
        boxContains cosF sinF x y b = true ∧
        ∀ j : ℕ, ∀ hj : j < boxes.length, i < j →
          boxContains cosF sinF x y (boxes.get ⟨j, hj⟩) = false) := by
  induction boxes with
  | nil =>
      refine ⟨by simp [findBoxAt], ?_⟩
      intro b hb
      simp [findBoxAt] at hb
  | cons hd tl ih =>
      obtain ⟨ihn, ihs⟩ := ih
      cases hf : findBoxAt cosF sinF x y tl with
      | some r =>
          obtain ⟨i, hi, hget, hc, htop⟩ := ihs r hf
          constructor
          · constructor
            · intro hnone
              rw [findBoxAt, hf] at hnone
              exact absurd hnone (by simp)
            · intro hall
              have hmem : r ∈ tl := hget ▸ List.get_mem tl i hi
              have := hall r (List.mem_cons_of_mem hd hmem)
              rw [this] at hc
              exact absurd hc (by simp)
          · intro b hb
            rw [findBoxAt, hf] at hb
            have hrb : r = b := by simpa using hb
            subst hrb
            refine ⟨i + 1, Nat.succ_lt_succ hi, hget, hc, ?_⟩
            intro j hj hij
            cases j with
            | zero => omega
            | succ j0 =>
                have hj0 : j0 < tl.length := Nat.lt_of_succ_lt_succ hj
                have : (hd :: tl).get ⟨j0 + 1, hj⟩ = tl.get ⟨j0, hj0⟩ := rfl
                rw [this]
                exact htop j0 hj0 (Nat.lt_of_succ_lt_succ hij)
      | none =>
          have hall : ∀ b ∈ tl, boxContains cosF sinF x y b = false := ihn.mp hf
          by_cases hc : boxContains cosF sinF x y hd = true
          · constructor
            · constructor
              · intro hnone
                rw [findBoxAt, hf, if_pos hc] at hnone
                exact absurd hnone (by simp)
              · intro hall2
                have := hall2 hd (List.mem_cons_self hd tl)
                rw [this] at hc
                exact absurd hc (by simp)
            · intro b hb
              rw [findBoxAt, hf, if_pos hc] at hb
              have hhb : hd = b := by simpa using hb
              subst hhb
              refine ⟨0, Nat.succ_pos _, rfl, hc, ?_⟩
              intro j hj hij
              cases j with
              | zero => omega
              | succ j0 =>
                  have hj0 : j0 < tl.length := Nat.lt_of_succ_lt_succ hj
                  have : (hd :: tl).get ⟨j0 + 1, hj⟩ = tl.get ⟨j0, hj0⟩ := rfl
                  rw [this]
                  exact hall _ (List.get_mem tl j0 hj0)
          · have hc0 : boxContains cosF sinF x y hd = false := by
              revert hc
              cases boxContains cosF sinF x y hd <;> simp
            constructor
            · constructor
              · intro _
                intro b hb
                rcases List.mem_cons.mp hb with hbh | hbt
                · rw [hbh]; exact hc0
                · exact hall b hbt
              · intro _
                rw [findBoxAt, hf, if_neg hc]
            · intro b hb
              rw [findBoxAt, hf, if_neg hc] at hb
              exact absurd hb (by simp)

/-- Claim C4, witness: with two overlapping standard boxes both
containing the point `(5, 5)`, `findBoxAt` returns the later (topmost)
entry, and that entry does contain the point. -/
theorem findBoxAt_topmost_witness :
    findBoxAt (fun _ => (1 : ℚ)) (fun _ => 0) 5 5
      [.standard 0 0 10 10, .standard 2 2 10 10] = some (.standard 2 2 10 10) ∧
    boxContains (fun _ => (1 : ℚ)) (fun _ => 0) 5 5 (.standard 2 2 10 10) = true := by
  have hf : findBoxAt (fun _ => (1 : ℚ)) (fun _ => 0) 5 5
      [.standard 0 0 10 10, .standard 2 2 10 10] = some (.standard 2 2 10 10) := by
    norm_num [findBoxAt, boxContains]
  have h := (findBoxAt_topmost (fun _ => (1 : ℚ)) (fun _ => 0) 5 5
    [.standard 0 0 10 10, .standard 2 2 10 10]).2 _ hf
  obtain ⟨i, hi, hget, hc, htop⟩ := h
  exact ⟨hf, hc⟩

/-- Claim C3: for a rotated box with non-negative width and height,
the rotated hit test (with the actual real cosine and sine) accepts the
center `(cx, cy)` for any angle, and rejects every point whose
Euclidean distance from the center exceeds the half-diagonal
`sqrt(width² + height²) / 2`. -/
theorem boxContains_rotated_center_far (cx cy w h θ : ℝ) (hw : 0 ≤ w) (hh : 0 ≤ h) :
    boxContains Real.cos Real.sin cx cy (.rotated cx cy w h θ) = true ∧
    ∀ px py : ℝ,
      Real.sqrt (w ^ 2 + h ^ 2) / 2 < Real.sqrt ((px - cx) ^ 2 + (py - cy) ^ 2) →
      boxContains Real.cos Real.sin px py (.rotated cx cy w h θ) = false := by
  constructor
  · simp only [boxContains, sub_self, zero_mul, sub_zero, add_zero, zero_add, abs_zero,
      Bool.and_eq_true, decide_eq_true_eq]
    exact ⟨by linarith, by linarith⟩
  · intro px py hfar
    by_contra hcon
    rw [Bool.not_eq_false] at hcon
    simp only [boxContains, Bool.and_eq_true, decide_eq_true_eq] at hcon
    obtain ⟨h1, h2⟩ := hcon
    set dx := px - cx with hdx
    set dy := py - cy with hdy
    set c := Real.cos (-θ) with hc
    set s := Real.sin (-θ) with hs
    have hcs : s ^ 2 + c ^ 2 = 1 := by rw [hc, hs]; exact Real.sin_sq_add_cos_sq (-θ)
    clear_value dx dy c s
    have e1 : (dx * c - dy * s) ^ 2 ≤ (w / 2) ^ 2 :=
      sq_le_sq' (neg_le_of_abs_le h1) (le_of_abs_le h1)
    have e2 : (dx * s + dy * c) ^ 2 ≤ (h / 2) ^ 2 :=
      sq_le_sq' (neg_le_of_abs_le h2) (le_of_abs_le h2)
    have hid : (dx * c - dy * s) ^ 2 + (dx * s + dy * c) ^ 2 =
        (dx ^ 2 + dy ^ 2) * (s ^ 2 + c ^ 2) := by ring
    rw [hcs, mul_one] at hid
    have ew : (w / 2) ^ 2 = w ^ 2 / 4 := by ring
    have eh : (h / 2) ^ 2 = h ^ 2 / 4 := by ring
    have hsum : dx ^ 2 + dy ^ 2 ≤ (w ^ 2 + h ^ 2) / 4 := by linarith
    have h4 : Real.sqrt ((w ^ 2 + h ^ 2) / 4) = Real.sqrt (w ^ 2 + h ^ 2) / 2 := by
      rw [show (w ^ 2 + h ^ 2) / 4 = (Real.sqrt (w ^ 2 + h ^ 2) / 2) ^ 2 by
        rw [div_pow, Real.sq_sqrt (by positivity)]; norm_num]
      exact Real.sqrt_sq (by positivity)
    have hle : Real.sqrt (dx ^ 2 + dy ^ 2) ≤ Real.sqrt (w ^ 2 + h ^ 2) / 2 :=
      h4 ▸ Real.sqrt_le_sqrt hsum
    linarith

/-- Claim C3, witness: the rotated box centered at the origin with
width 3, height 4, angle 0 contains its center, and rejects the point
`(10, 0)`, which lies at distance 10 from the center while the
half-diagonal is `5 / 2`. -/
theorem boxContains_rotated_center_far_witness :
    boxContains Real.cos Real.sin 0 0 (.rotated 0 0 3 4 0) = true ∧
    Real.sqrt (3 ^ 2 + 4 ^ 2) / 2 < Real.sqrt ((10 - 0 : ℝ) ^ 2 + (0 - 0) ^ 2) ∧
    boxContains Real.cos Real.sin 10 0 (.rotated 0 0 3 4 0) = false := by
  have h := boxContains_rotated_center_far 0 0 3 4 0 (by norm_num) (by norm_num)
  have h25 : Real.sqrt ((3 : ℝ) ^ 2 + 4 ^ 2) = 5 := by
    rw [show (3 : ℝ) ^ 2 + 4 ^ 2 = 5 ^ 2 by norm_num,
      Real.sqrt_sq (by norm_num : (0 : ℝ) ≤ 5)]
  have h100 : Real.sqrt ((10 - 0 : ℝ) ^ 2 + (0 - 0) ^ 2) = 10 := by
    rw [show ((10 : ℝ) - 0) ^ 2 + ((0 : ℝ) - 0) ^ 2 = 10 ^ 2 by norm_num,
      Real.sqrt_sq (by norm_num : (0 : ℝ) ≤ 10)]
  have hfar : Real.sqrt ((3 : ℝ) ^ 2 + 4 ^ 2) / 2 <
      Real.sqrt ((10 - 0 : ℝ) ^ 2 + (0 - 0) ^ 2) := by
    rw [h25, h100]; norm_num
  exact ⟨h.1, hfar, h.2 10 0 hfar⟩

/-- Claim C5: after a gesture-move update of a rotated box, with the
center clamped by the half-diagonal, every point of the rotated
rectangle (parametrized by local offsets `|u| ≤ w/2`, `|v| ≤ h/2`
rotated by the box angle) lies inside `[0, W] × [0, H]`, for every
angle and every pointer position, whenever the clamp intervals are
non-empty (`2 · halfDiag ≤ W` and `2 · halfDiag ≤ H`). -/
theorem dragMove_rotated_inbounds (W H x y w h θ px py ox oy u v : ℝ)
    (hW : 2 * (Real.sqrt (w * w + h * h) / 2) ≤ W)
    (hH : 2 * (Real.sqrt (w * w + h * h) / 2) ≤ H)
    (hu : |u| ≤ w / 2) (hv : |v| ≤ h / 2) :
    0 ≤ boxX (dragMove Real.sqrt W H px py ox oy (.rotated x y w h θ)) +
        (u * Real.cos θ - v * Real.sin θ) ∧
    boxX (dragMove Real.sqrt W H px py ox oy (.rotated x y w h θ)) +
        (u * Real.cos θ - v * Real.sin θ) ≤ W ∧
    0 ≤ boxY (dragMove Real.sqrt W H px py ox oy (.rotated x y w h θ)) +
        (u * Real.sin θ + v * Real.cos θ) ∧
    boxY (dragMove Real.sqrt W H px py ox oy (.rotated x y w h θ)) +
        (u * Real.sin θ + v * Real.cos θ) ≤ H := by
  simp only [dragMove, boxX, boxY]
  set d := Real.sqrt (w * w + h * h) with hd
  have hd0 : 0 ≤ d := Real.sqrt_nonneg _
  have hdW : d ≤ W := by linarith
  have hdH : d ≤ H := by linarith
  have hu2 : u ^ 2 ≤ (w / 2) ^ 2 := sq_le_sq' (neg_le_of_abs_le hu) (le_of_abs_le hu)
  have hv2 : v ^ 2 ≤ (h / 2) ^ 2 := sq_le_sq' (neg_le_of_abs_le hv) (le_of_abs_le hv)
  have hsum : u ^ 2 + v ^ 2 ≤ (w * w + h * h) / 4 := by nlinarith
  have hcs : Real.sin θ ^ 2 + Real.cos θ ^ 2 = 1 := Real.sin_sq_add_cos_sq θ
  have hidx : (u * Real.cos θ - v * Real.sin θ) ^ 2 + (u * Real.sin θ + v * Real.cos θ) ^ 2 =
      (u ^ 2 + v ^ 2) * (Real.sin θ ^ 2 + Real.cos θ ^ 2) := by ring
  rw [hcs, mul_one] at hidx
  have hx2 : (u * Real.cos θ - v * Real.sin θ) ^ 2 ≤ (w * w + h * h) / 4 := by
    nlinarith [sq_nonneg (u * Real.sin θ + v * Real.cos θ)]
  have hy2 : (u * Real.sin θ + v * Real.cos θ) ^ 2 ≤ (w * w + h * h) / 4 := by
    nlinarith [sq_nonneg (u * Real.cos θ - v * Real.sin θ)]
  have hdd : (d / 2) ^ 2 = (w * w + h * h) / 4 := by
    rw [div_pow, hd, Real.sq_sqrt (by nlinarith [mul_self_nonneg w, mul_self_nonneg h])]
    norm_num
  have habsx : |u * Real.cos θ - v * Real.sin θ| ≤ d / 2 := by
    calc |u * Real.cos θ - v * Real.sin θ|
        = Real.sqrt ((u * Real.cos θ - v * Real.sin θ) ^ 2) :=
          (Real.sqrt_sq_eq_abs _).symm
      _ ≤ Real.sqrt ((d / 2) ^ 2) := Real.sqrt_le_sqrt (by rw [hdd]; exact hx2)
      _ = d / 2 := Real.sqrt_sq (by positivity)
  have habsy : |u * Real.sin θ + v * Real.cos θ| ≤ d / 2 := by
    calc |u * Real.sin θ + v * Real.cos θ|
        = Real.sqrt ((u * Real.sin θ + v * Real.cos θ) ^ 2) :=
          (Real.sqrt_sq_eq_abs _).symm
      _ ≤ Real.sqrt ((d / 2) ^ 2) := Real.sqrt_le_sqrt (by rw [hdd]; exact hy2)
      _ = d / 2 := Real.sqrt_sq (by positivity)
  have hx_lo : d / 2 ≤ max (d / 2) (min (W - d / 2) (px - ox)) := le_max_left _ _
  have hx_hi : max (d / 2) (min (W - d / 2) (px - ox)) ≤ W - d / 2 :=
    max_le (by linarith) (min_le_left _ _)
  have hy_lo : d / 2 ≤ max (d / 2) (min (H - d / 2) (py - oy)) := le_max_left _ _
  have hy_hi : max (d / 2) (min (H - d / 2) (py - oy)) ≤ H - d / 2 :=
    max_le (by linarith) (min_le_left _ _)
  have hax := abs_le.mp habsx
  have hay := abs_le.mp habsy
  exact ⟨by linarith [hax.1], by linarith [hax.2], by linarith [hay.1], by linarith [hay.2]⟩

/-- Claim C5, witness: for a 100 × 100 canvas, a rotated box of width
3 and height 4 (half-diagonal `5/2`), angle 0, pointer `(50, 60)`, drag
offset `(0, 0)`, and local offset `(1, 1)`, the clamped rectangle point
stays inside the canvas. -/
theorem dragMove_rotated_inbounds_witness :
    2 * (Real.sqrt ((3 : ℝ) * 3 + 4 * 4) / 2) ≤ 100 ∧
    |(1 : ℝ)| ≤ 3 / 2 ∧ |(1 : ℝ)| ≤ 4 / 2 ∧
    (0 ≤ boxX (dragMove Real.sqrt 100 100 50 60 0 0 (.rotated 7 8 3 4 0)) +
        (1 * Real.cos 0 - 1 * Real.sin 0) ∧
      boxX (dragMove Real.sqrt 100 100 50 60 0 0 (.rotated 7 8 3 4 0)) +
        (1 * Real.cos 0 - 1 * Real.sin 0) ≤ 100 ∧
      0 ≤ boxY (dragMove Real.sqrt 100 100 50 60 0 0 (.rotated 7 8 3 4 0)) +
        (1 * Real.sin 0 + 1 * Real.cos 0) ∧
      boxY (dragMove Real.sqrt 100 100 50 60 0 0 (.rotated 7 8 3 4 0)) +
        (1 * Real.sin 0 + 1 * Real.cos 0) ≤ 100) := by
  have h5 : Real.sqrt ((3 : ℝ) * 3 + 4 * 4) = 5 := by
    rw [show (3 : ℝ) * 3 + 4 * 4 = 5 ^ 2 by norm_num,
      Real.sqrt_sq (by norm_num : (0 : ℝ) ≤ 5)]
  have hW : 2 * (Real.sqrt ((3 : ℝ) * 3 + 4 * 4) / 2) ≤ 100 := by rw [h5]; norm_num
  have hu : |(1 : ℝ)| ≤ 3 / 2 := by rw [abs_one]; norm_num
  have hv : |(1 : ℝ)| ≤ 4 / 2 := by rw [abs_one]; norm_num
  exact ⟨hW, hu, hv, dragMove_rotated_inbounds 100 100 7 8 3 4 0 50 60 0 0 1 1 hW hW hu hv⟩

/-- Claim C10: when a clamp interval is empty, the clamp resolves to
its lower bound because `max lo (min hi v)` applies `lo` last: a
standard box wider (taller) than the canvas is pinned to `x = 0`
(`y = 0`), and a rotated box whose diagonal exceeds the canvas extent
has its center pinned to `halfDiag`, regardless of pointer position. -/
theorem dragMove_empty_interval (W H px py ox oy x1 y1 w1 h1 x2 y2 w2 h2 θ : ℝ) :
    (W < w1 → boxX (dragMove Real.sqrt W H px py ox oy (.standard x1 y1 w1 h1)) = 0) ∧
    (H < h1 → boxY (dragMove Real.sqrt W H px py ox oy (.standard x1 y1 w1 h1)) = 0) ∧
    (W < 2 * (Real.sqrt (w2 * w2 + h2 * h2) / 2) →
      boxX (dragMove Real.sqrt W H px py ox oy (.rotated x2 y2 w2 h2 θ)) =
        Real.sqrt (w2 * w2 + h2 * h2) / 2) ∧
    (H < 2 * (Real.sqrt (w2 * w2 + h2 * h2) / 2) →
      boxY (dragMove Real.sqrt W H px py ox oy (.rotated x2 y2 w2 h2 θ)) =
        Real.sqrt (w2 * w2 + h2 * h2) / 2) := by
  simp only [dragMove, boxX, boxY]
  refine ⟨?_, ?_, ?_, ?_⟩
  · intro hw
    have := min_le_left (W - w1) (px - ox)
    exact max_eq_left (by linarith)
  · intro hh
    have := min_le_left (H - h1) (py - oy)
    exact max_eq_left (by linarith)
  · intro hw
    have := min_le_left (W - Real.sqrt (w2 * w2 + h2 * h2) / 2) (px - ox)
    exact max_eq_left (by linarith)
  · intro hh
    have := min_le_left (H - Real.sqrt (w2 * w2 + h2 * h2) / 2) (py - oy)
    exact max_eq_left (by linarith)

/-- Claim C10, witness: on a 10 × 10 canvas, a standard box of size
20 × 30 is pinned to `(0, 0)`, and a rotated box of size 9 × 12
(diagonal 15) has its center pinned to `(15/2, 15/2)`, for the concrete
pointer position `(3, 4)` and drag offset `(1, 2)`. -/
theorem dragMove_empty_interval_witness :
    (10 : ℝ) < 20 ∧ (10 : ℝ) < 30 ∧
    (10 : ℝ) < 2 * (Real.sqrt (9 * 9 + 12 * 12) / 2) ∧
    boxX (dragMove Real.sqrt 10 10 3 4 1 2 (.standard 5 6 20 30)) = 0 ∧
    boxY (dragMove Real.sqrt 10 10 3 4 1 2 (.standard 5 6 20 30)) = 0 ∧
    boxX (dragMove Real.sqrt 10 10 3 4 1 2 (.rotated 5 6 9 12 0)) =
      Real.sqrt (9 * 9 + 12 * 12) / 2 ∧
    boxY (dragMove Real.sqrt 10 10 3 4 1 2 (.rotated 5 6 9 12 0)) =
      Real.sqrt (9 * 9 + 12 * 12) / 2 := by
  have h15 : Real.sqrt ((9 : ℝ) * 9 + 12 * 12) = 15 := by
    rw [show (9 : ℝ) * 9 + 12 * 12 = 15 ^ 2 by norm_num,
      Real.sqrt_sq (by norm_num : (0 : ℝ) ≤ 15)]
  have h := dragMove_empty_interval 10 10 3 4 1 2 5 6 20 30 5 6 9 12 0
  have hw1 : (10 : ℝ) < 20 := by norm_num
  have hh1 : (10 : ℝ) < 30 := by norm_num
  have hrot : (10 : ℝ) < 2 * (Real.sqrt (9 * 9 + 12 * 12) / 2) := by rw [h15]; norm_num
  exact ⟨hw1, hh1, hrot, h.1 hw1, h.2.1 hh1, h.2.2.1 hrot, h.2.2.2 hrot⟩

/-- Claim C8 (amended): an exception raised anywhere inside the `try`
block of the detection operation is caught at its top level and
reported as the user-visible error status `"Error processing image"`.
If the exception arises in the detect step itself, the prior box set,
render, and detections list are left intact; but an exception arising
after a successful non-empty detection leaves a partial update: the
detections list has already been replaced, and with a failure during
rendering the box set is replaced too and the canvas has been reset to
the bare base image. -/
theorem detectClick_fault_reported (atan2 hypot : α → α → α) (W H : α)
    (res : List (Detection α)) (s : AppState α) (hW : W ≠ 0) (hH : H ≠ 0) :
    ((detectClick atan2 hypot W H true .detectFault res s).status = "Error processing image" ∧
      (detectClick atan2 hypot W H true .detectFault res s).statusIsError = true ∧
      (detectClick atan2 hypot W H true .detectFault res s).redactionBoxes = s.redactionBoxes ∧
      (detectClick atan2 hypot W H true .detectFault res s).canvas = s.canvas ∧
      (detectClick atan2 hypot W H true .detectFault res s).detections = s.detections) ∧
    (res ≠ [] →
      (detectClick atan2 hypot W H true .restoreFault res s).status = "Error processing image" ∧
      (detectClick atan2 hypot W H true .restoreFault res s).statusIsError = true ∧
      (detectClick atan2 hypot W H true .restoreFault res s).detections = res ∧
      (detectClick atan2 hypot W H true .restoreFault res s).redactionBoxes = s.redactionBoxes ∧
      (detectClick atan2 hypot W H true .restoreFault res s).canvas = s.canvas) ∧
    (res ≠ [] → calculateRedactionBoxes atan2 hypot W H res ≠ [] →
      (detectClick atan2 hypot W H true .drawFault res s).status = "Error processing image" ∧
      (detectClick atan2 hypot W H true .drawFault res s).statusIsError = true ∧
      (detectClick atan2 hypot W H true .drawFault res s).detections = res ∧
      (detectClick atan2 hypot W H true .drawFault res s).redactionBoxes =
        calculateRedactionBoxes atan2 hypot W H res ∧
      (detectClick atan2 hypot W H true .drawFault res s).canvas = .baseOnly) := by
  have hne1 : PipelineFault.restoreFault ≠ PipelineFault.detectFault := by decide
  have hne2 : PipelineFault.drawFault ≠ PipelineFault.detectFault := by decide
  have hne3 : PipelineFault.drawFault ≠ PipelineFault.restoreFault := by decide
  refine ⟨?_, ?_, ?_⟩
  · simp [detectClick, hW, hH]
  · intro hres
    simp [detectClick, hW, hH, List.length_eq_zero, hres, hne1]
  · intro hres hboxes
    have hb2 : ¬ ∀ a ∈ res, computeBox atan2 hypot W H a = none := by
      simpa [calculateRedactionBoxes, List.filterMap_eq_nil_iff] using hboxes
    simp [detectClick, hW, hH, List.length_eq_zero, hres, hne2, hne3, hb2,
      calculateRedactionBoxes]

/-- Claim C8, witness: with a concrete prior state and one concrete
bounding-box detection, a detect-step fault leaves the box set intact
and reports the error status, and a render-step fault reports the same
error status. -/
theorem detectClick_fault_reported_witness :
    (detectClick (fun _ _ => (0 : ℚ)) (fun _ _ => 0) 1000 1000 true .detectFault
      [⟨some ⟨100, 100, 200, 200⟩, none⟩]
      ⟨[], [.standard 0 0 5 5], .composited [.standard 0 0 5 5], "Ready", false, true⟩).redactionBoxes =
      [.standard 0 0 5 5] ∧
    (detectClick (fun _ _ => (0 : ℚ)) (fun _ _ => 0) 1000 1000 true .drawFault
      [⟨some ⟨100, 100, 200, 200⟩, none⟩]
      ⟨[], [.standard 0 0 5 5], .composited [.standard 0 0 5 5], "Ready", false, true⟩).status =
      "Error processing image" := by
  have hboxes : calculateRedactionBoxes (fun _ _ => (0 : ℚ)) (fun _ _ => 0) 1000 1000
      [⟨some ⟨100, 100, 200, 200⟩, none⟩] ≠ [] := by
    norm_num [calculateRedactionBoxes, List.filterMap_cons, computeBox]
  have h := detectClick_fault_reported (fun _ _ => (0 : ℚ)) (fun _ _ => 0) 1000 1000
    [⟨some ⟨100, 100, 200, 200⟩, none⟩]
    ⟨[], [.standard 0 0 5 5], .composited [.standard 0 0 5 5], "Ready", false, true⟩
    (by norm_num) (by norm_num)
  exact ⟨h.1.2.2.1, (h.2.2 (by simp) hboxes).1⟩

/-- Claim C8, counterexample to the claim as stated: a fault in the
`putImageData` restore step leaves the already-replaced detections list
behind, and a fault in the render step leaves a replaced box set and a
canvas reset to the base image — so "the failed operation applies no
partial update" fails. -/
theorem detectClick_partial_update_counterexample :
    (detectClick (fun _ _ => (0 : ℚ)) (fun _ _ => 0) 1000 1000 true .restoreFault
      [⟨some ⟨100, 100, 200, 200⟩, none⟩]
      ⟨[], [.standard 0 0 5 5], .composited [.standard 0 0 5 5], "Ready", false, true⟩).detections ≠
      ([] : List (Detection ℚ)) ∧
    (detectClick (fun _ _ => (0 : ℚ)) (fun _ _ => 0) 1000 1000 true .drawFault
      [⟨some ⟨100, 100, 200, 200⟩, none⟩]
      ⟨[], [.standard 0 0 5 5], .composited [.standard 0 0 5 5], "Ready", false, true⟩).redactionBoxes ≠
      [.standard 0 0 5 5] ∧
    (detectClick (fun _ _ => (0 : ℚ)) (fun _ _ => 0) 1000 1000 true .drawFault
      [⟨some ⟨100, 100, 200, 200⟩, none⟩]
      ⟨[], [.standard 0 0 5 5], .composited [.standard 0 0 5 5], "Ready", false, true⟩).canvas ≠
      .composited [.standard 0 0 5 5] := by
  have hne1 : PipelineFault.restoreFault ≠ PipelineFault.detectFault := by decide
  have hne2 : PipelineFault.drawFault ≠ PipelineFault.detectFault := by decide
  have hne3 : PipelineFault.drawFault ≠ PipelineFault.restoreFault := by decide
  refine ⟨?_, ?_, ?_⟩
  · norm_num [detectClick, calculateRedactionBoxes, List.filterMap_cons, computeBox,
      hne1, hne2, hne3]
  · norm_num [detectClick, calculateRedactionBoxes, List.filterMap_cons, computeBox,
      hne1, hne2, hne3]
  · norm_num [detectClick, calculateRedactionBoxes, List.filterMap_cons, computeBox,
      hne1, hne2, hne3]
    decide

/-- Claim C9 (amended): when the detection pass succeeds with zero
detections, `compute` on the empty list returns the empty list and the
handler reports the informational status `"No faces detected"` (not an
error) — but it returns before recomputing boxes, so the box set is
left unchanged rather than cleared (only the detections list is reset
to empty). -/
theorem detectClick_empty_result (atan2 hypot : α → α → α) (W H : α)
    (s : AppState α) (hW : W ≠ 0) (hH : H ≠ 0) :
    (detectClick atan2 hypot W H true .noFault [] s).status = "No faces detected" ∧
    (detectClick atan2 hypot W H true .noFault [] s).statusIsError = false ∧
    (detectClick atan2 hypot W H true .noFault [] s).redactionBoxes = s.redactionBoxes ∧
    (detectClick atan2 hypot W H true .noFault [] s).canvas = s.canvas ∧
    (detectClick atan2 hypot W H true .noFault [] s).detections = [] ∧
    calculateRedactionBoxes atan2 hypot W H ([] : List (Detection α)) = [] := by
  simp [detectClick, hW, hH, calculateRedactionBoxes]

/-- Claim C9, witness: for a concrete prior state holding one box, an
empty detection result reports "No faces detected" without an error and
leaves that box in place. -/
theorem detectClick_empty_result_witness :
    (detectClick (fun _ _ => (0 : ℚ)) (fun _ _ => 0) 640 480 true .noFault []
      ⟨[], [.standard 1 2 3 4], .composited [.standard 1 2 3 4], "Ready", false, true⟩).status =
      "No faces detected" ∧
    (detectClick (fun _ _ => (0 : ℚ)) (fun _ _ => 0) 640 480 true .noFault []
      ⟨[], [.standard 1 2 3 4], .composited [.standard 1 2 3 4], "Ready", false, true⟩).redactionBoxes =
      [.standard 1 2 3 4] := by
  have h := detectClick_empty_result (fun _ _ => (0 : ℚ)) (fun _ _ => 0) 640 480
    ⟨[], [.standard 1 2 3 4], .composited [.standard 1 2 3 4], "Ready", false, true⟩
    (by norm_num) (by norm_num)
  exact ⟨h.1, h.2.2.1⟩

/-- Claim C9, counterexample to the claim as stated: with a prior box
set holding one box, an empty detection result leaves the box set
non-empty — it is not cleared. -/
theorem detectClick_empty_result_counterexample :
    (detectClick (fun _ _ => (0 : ℚ)) (fun _ _ => 0) 800 600 true .noFault []
      ⟨[], [.standard 9 9 2 2], .composited [.standard 9 9 2 2], "Ready", false, true⟩).redactionBoxes ≠
      ([] : List (RedactionBox ℚ)) := by
  have hne : PipelineFault.noFault ≠ PipelineFault.detectFault := by decide
  norm_num [detectClick, hne]

end Redacted
